import Mathlib

/-!
# HeatWatch risk engine — shallow embedding and verification

This file embeds the risk-scoring and alerting engine of the HeatWatch
repository (`src/models/risk_engine.py`) in Lean 4 and settles the frozen
claims about it.

Modelling conventions:
* Python floats are modelled as exact rationals (`ℚ`); Python ints as `ℤ`.
* `round(x)` / `round(x, n)` is Python 3 banker's rounding (half to even),
  modelled exactly on `ℚ` by `pyRound` / `pyRound1` / `pyRound2`.
* `int(x)` truncation toward zero is `pyInt`.
* `np.exp` is transcendental floating point and has no exact rational
  counterpart, so the sigmoid of `_sigmoid` enters the model as an explicit
  function parameter `sigma : ℚ → ℚ`; every theorem below holds for every
  choice of `sigma`, hence in particular for the floating-point sigmoid.
* pandas `DataFrame`s are modelled by `DataFrame`: a row count together with
  an association list from column name to the column's values.  `iloc[-1]`
  on an empty frame (`IndexError`) is the `emptySeries` error, a missing
  column (`KeyError`) is the `schemaMismatch` error; fallible code returns
  `Except EngineError _`.
* `datetime.now()` is a clock reading, made explicit as the `now` argument
  of `compute_all_kpis`; it is stored in the `last_update` field exactly as
  the source does.
* The f-string formatting of a driver's `value` field (`"33.0°C"`) is
  presentational; the model stores the underlying number.
-/

/-- Python 3 `round` to the nearest integer, ties to even, on exact
rationals. -/
def pyRound (x : ℚ) : ℤ :=
  if x - (⌊x⌋ : ℚ) < 1/2 then ⌊x⌋
  else if 1/2 < x - (⌊x⌋ : ℚ) then ⌊x⌋ + 1
  else if ⌊x⌋ % 2 = 0 then ⌊x⌋ else ⌊x⌋ + 1

/-- Python `round(x, 1)`. -/
def pyRound1 (x : ℚ) : ℚ := (pyRound (x * 10) : ℚ) / 10

/-- Python `round(x, 2)`. -/
def pyRound2 (x : ℚ) : ℚ := (pyRound (x * 100) : ℚ) / 100

/-- Python `int(x)`: truncation toward zero. -/
def pyInt (x : ℚ) : ℤ := if 0 ≤ x then ⌊x⌋ else -⌊-x⌋

/-- `risk_engine._normalize`: normalize value to the 0-100 range. -/
def _normalize (value min_val max_val : ℚ) : ℚ :=
  if max_val = min_val then 50
  else max 0 (min 100 ((value - min_val) / (max_val - min_val) * 100))

/-- `risk_engine.compute_heat_score`:
`HeatScore = normalize(daytime_temp + 1.5 * night_temp, 40, 105)`. -/
def compute_heat_score (temp_c nighttime_temp_c : ℚ) : ℚ :=
  let nighttime_weight : ℚ := 1.5
  let combined := temp_c + nighttime_weight * nighttime_temp_c
  _normalize combined 40 105

/-- `risk_engine.compute_pollution_score`: `normalize(pm25, 10, 80)`. -/
def compute_pollution_score (pm25 : ℚ) : ℚ :=
  _normalize pm25 10 80

/-- `risk_engine.compute_micro_signal_score`:
`0.4*search + 0.35*pharmacy + 0.25*clinic` (no clamping in the source). -/
def compute_micro_signal_score (search pharmacy clinic : ℚ) : ℚ :=
  0.4 * search + 0.35 * pharmacy + 0.25 * clinic

/-- `risk_engine.compute_heat_respiratory_risk_index`:
`int(max(0, min(100, round(0.35*heat + 0.25*pollution + 0.25*vuln + 0.15*micro))))`. -/
def compute_heat_respiratory_risk_index
    (heat_score pollution_score vulnerability_score micro_signal_score : ℚ) : ℤ :=
  let risk := 0.35 * heat_score + 0.25 * pollution_score
    + 0.25 * vulnerability_score + 0.15 * micro_signal_score
  max 0 (min 100 (pyRound risk))

/-- `risk_engine.compute_respiratory_surge_probability`, with the sigmoid as
an explicit parameter `sigma` (see the header note on `np.exp`):
`int(max(0, min(100, round(sigma(0.06*(micro-50) + 0.05*(pm25-35) + 0.08*(night-18)) * 100))))`. -/
def compute_respiratory_surge_probability (sigma : ℚ → ℚ)
    (micro_signal_score pm25 nighttime_temp : ℚ) : ℤ :=
  let x := 0.06 * (micro_signal_score - 50) + 0.05 * (pm25 - 35)
    + 0.08 * (nighttime_temp - 18)
  let p := sigma x
  max 0 (min 100 (pyRound (p * 100)))

/-- `risk_engine.compute_combined_stress`:
`round(0.6*(risk/100) + 0.4*(surge/100), 2)` (no clamping in the source). -/
def compute_combined_stress (heat_resp_risk surge_prob : ℤ) : ℚ :=
  pyRound2 (0.6 * ((heat_resp_risk : ℚ) / 100) + 0.4 * ((surge_prob : ℚ) / 100))

/-- `risk_engine.compute_icu_strain`:
`int(max(0, min(40, round(5 + 0.25*risk + 0.15*surge))))`. -/
def compute_icu_strain (heat_resp_risk surge_prob : ℤ) : ℤ :=
  let strain := 5 + 0.25 * (heat_resp_risk : ℚ) + 0.15 * (surge_prob : ℚ)
  max 0 (min 40 (pyRound strain))

/-- The threshold dictionary passed to `compute_alert_level`: the source's
seven keys.  Note there is no key for the combined-stress threshold. -/
structure Thresholds where
  watch_heat_risk : ℤ
  warning_heat_risk : ℤ
  emergency_heat_risk : ℤ
  watch_surge_prob : ℤ
  warning_surge_prob : ℤ
  emergency_surge_prob : ℤ
  emergency_icu_strain : ℤ
deriving Repr, DecidableEq

/-- The built-in default thresholds of `compute_alert_level`
(fields in declaration order: watch 55, warning 70, emergency 85 for risk;
watch 35, warning 55, emergency 70 for surge; emergency 30 for ICU strain). -/
def defaultThresholds : Thresholds :=
  ⟨55, 70, 85, 35, 55, 70, 30⟩

/-- Result record of `compute_alert_level`: `{"value": ..., "reason": ...}`. -/
structure AlertResult where
  value : String
  reason : String
deriving Repr, DecidableEq

/-- The EMERGENCY `reasons` list built by `compute_alert_level`
(lines 126-132 of `risk_engine.py`), in source order. -/
def emergencyReasons (th : Thresholds) (heat_resp_risk surge_prob icu_strain : ℤ) :
    List String :=
  (if heat_resp_risk ≥ th.emergency_heat_risk
    then ["Heat-Respiratory Risk Critical"] else [])
  ++ (if surge_prob ≥ th.emergency_surge_prob
    then ["Surge Probability Critical"] else [])
  ++ (if icu_strain ≥ th.emergency_icu_strain
    then ["ICU Strain Critical"] else [])

/-- The WARNING `reasons` list built by `compute_alert_level`
(lines 137-143 of `risk_engine.py`); note the combined-stress comparison is
against the literal `0.65`, not a threshold key. -/
def warningReasons (th : Thresholds) (heat_resp_risk surge_prob : ℤ) (combined : ℚ) :
    List String :=
  (if heat_resp_risk ≥ th.warning_heat_risk
    then ["Elevated Heat-Respiratory Risk"] else [])
  ++ (if surge_prob ≥ th.warning_surge_prob
    then ["Elevated Surge Probability"] else [])
  ++ (if combined ≥ 0.65 then ["Multi-signal Threshold"] else [])

/-- `" + ".join(reasons)`. -/
def joinReasons (l : List String) : String := String.intercalate " + " l

/-- `risk_engine.compute_alert_level`.  `thresholds = none` models the Python
default `thresholds=None`, replaced by the built-in complete default. -/
def compute_alert_level (heat_resp_risk surge_prob : ℤ) (combined : ℚ)
    (icu_strain : ℤ) (thresholds : Option Thresholds) : AlertResult :=
  let th := thresholds.getD defaultThresholds
  let er := emergencyReasons th heat_resp_risk surge_prob icu_strain
  if er ≠ [] then ⟨"EMERGENCY", joinReasons er⟩
  else
    let wr := warningReasons th heat_resp_risk surge_prob combined
    if wr ≠ [] then ⟨"WARNING", joinReasons wr⟩
    else if heat_resp_risk ≥ th.watch_heat_risk ∨ surge_prob ≥ th.watch_surge_prob
      then ⟨"WATCH", "Elevated Indicators"⟩
    else ⟨"NORMAL", "All indicators within normal range"⟩

/-- `risk_engine._get_risk_level`: map a score to High/Med/Low. -/
def _get_risk_level (value : ℤ) : String :=
  if value ≥ 70 then "High"
  else if value ≥ 40 then "Med"
  else "Low"

/-- Engine failure classes: `emptySeries` models the `IndexError` of
`df.iloc[-1]` on a zero-row frame; `schemaMismatch` the `KeyError` of a
missing expected column (cf. `validators.py`, which reports these two
conditions); `valueError` the Python `ValueError` that `round` raises on a
NaN — reachable in `compute_all_kpis` when a zero-row vulnerability table
makes `df_vuln["vulnerability_score"].mean()` NaN (line 271) and the risk
index rounds it (line 279 via line 67). -/
inductive EngineError where
  | emptySeries : EngineError
  | schemaMismatch : EngineError
  | valueError : EngineError
deriving Repr, DecidableEq

/-- A pandas `DataFrame` with numeric (here: rational) cells: a row count
plus an association list from column name to that column's values.  A
well-formed frame has every column of length `nrows`. -/
structure DataFrame where
  nrows : ℕ
  cols : List (String × List ℚ)
deriving Repr, DecidableEq

/-- Column lookup (`df[name]`); `none` is pandas' `KeyError`. -/
def DataFrame.getCol (df : DataFrame) (name : String) : Option (List ℚ) :=
  (df.cols.find? (fun p => p.1 == name)).map Prod.snd

/-- `df[name]` as an engine step: a missing column is a schema mismatch. -/
def getColE (df : DataFrame) (name : String) : Except EngineError (List ℚ) :=
  match df.getCol name with
  | none => .error .schemaMismatch
  | some l => .ok l

/-- `df.iloc[-1][name]`: fails with `emptySeries` on a zero-row frame
(`iloc[-1]` raises before any column is touched), then with
`schemaMismatch` when the column is absent. -/
def colLast (df : DataFrame) (name : String) : Except EngineError ℚ :=
  if df.nrows = 0 then .error .emptySeries
  else
    match df.getCol name with
    | none => .error .schemaMismatch
    | some l =>
      match l.getLast? with
      | none => .error .schemaMismatch
      | some v => .ok v

/-- pandas `Series.mean` on a non-empty rational column (`sum/len`).  Used
only inside `_pct_change`, whose `len < 2` guard makes both slices
non-empty, so the NaN that pandas produces on an empty column is
unreachable there; where an empty column is reachable (the vulnerability
mean in `compute_all_kpis`), the NaN-aware `listMean?` is used instead. -/
def listMean (l : List ℚ) : ℚ := l.sum / l.length

/-- pandas `Series.mean`, NaN-aware: `none` stands for the NaN mean of an
empty column (NaN has no rational counterpart), otherwise `sum/len`. -/
def listMean? (l : List ℚ) : Option ℚ :=
  if l.length = 0 then none else some (l.sum / l.length)

/-- First arithmetic use of a possibly-NaN mean: Python's `round` raises
`ValueError` on NaN (`risk_engine.py` line 67, reached from a zero-row
vulnerability table via line 279); a finite mean passes through.  Only pure
score computations lie between the mean (line 271) and that `round`, so
the model surfaces the error at the mean's bind. -/
def requireFinite (o : Option ℚ) : Except EngineError ℚ :=
  match o with
  | none => .error .valueError
  | some v => .ok v

/-- `series.iloc[-k:]`: the last `k` elements (the whole list when
`k ≥ len`, as in Python). -/
def takeLast (k : ℕ) (l : List ℚ) : List ℚ := l.drop (l.length - k)

/-- `identify_drivers._pct_change`: mean of the first `max(1, len//3)`
rows vs the mean of the last `max(1, len//3)` rows, as a percentage
rounded to 1 decimal; 0 when the series has fewer than 2 rows or the
early mean is 0. -/
def _pct_change (series : List ℚ) : ℚ :=
  if series.length < 2 then 0
  else
    let k := max 1 (series.length / 3)
    let early := listMean (series.take k)
    let late := listMean (takeLast k series)
    if early = 0 then 0
    else pyRound1 ((late - early) / early * 100)

/-- One entry of the driver ranking.  `value` holds the latest raw value
(the source stores it formatted with its physical unit; the formatting is
presentational and elided here). -/
structure Driver where
  name : String
  value : ℚ
  change_pct : ℚ
  direction : String
  score : ℚ
deriving Repr, DecidableEq

/-- The `"↑" if change > 0 else ("↓" if change < 0 else "→")` arrow. -/
def directionArrow (change : ℚ) : String :=
  if change > 0 then "↑" else if change < 0 then "↓" else "→"

/-- Lift a positional/column access that pandas guarantees on a well-formed
frame: `none` (only reachable on frames not representable in pandas, e.g. a
column shorter than its frame) maps to the schema-mismatch class. -/
def optE (o : Option ℚ) : Except EngineError ℚ :=
  match o with
  | none => .error .schemaMismatch
  | some v => .ok v

/-- The last element of a column as an engine step (`iloc[-1][col]` after
the frame is known non-empty). -/
def lastE (l : List ℚ) : Except EngineError ℚ :=
  optE l.getLast?

/-- Insert into a score-descending list, after any earlier entry of equal
score: together with `sortByScoreDesc` this is the stable descending sort
that Python's `list.sort(key=lambda x: x["score"], reverse=True)`
performs. -/
def insertByScoreDesc (d : Driver) : List Driver → List Driver
  | [] => [d]
  | x :: xs => if x.score ≤ d.score then d :: x :: xs else x :: insertByScoreDesc d xs

/-- Stable sort by impact score, descending (`drivers_scored.sort(...)`). -/
def sortByScoreDesc : List Driver → List Driver
  | [] => []
  | x :: xs => insertByScoreDesc x (sortByScoreDesc xs)

/-- `risk_engine.identify_drivers`: build the six fixed candidate drivers
(three environmental with hazard bonuses, three micro-signal without),
sort them by impact score descending (Python's stable sort with
`reverse=True`), and return the first `top_n`. -/
def identify_drivers (df_env df_micro : DataFrame) (top_n : ℕ) :
    Except EngineError (List Driver) :=
  if df_env.nrows = 0 then .error .emptySeries
  else if df_micro.nrows = 0 then .error .emptySeries
  else do
    let tempCol ← getColE df_env "temp_c"
    let latestTemp ← lastE tempCol
    let temp_change := _pct_change tempCol
    let d1 : Driver := ⟨"Daytime Temperature", latestTemp, temp_change,
      directionArrow temp_change,
      |temp_change| + (if latestTemp ≥ 35 then 20 else 0)⟩
    let nightCol ← getColE df_env "nighttime_temp_c"
    let latestNight ← lastE nightCol
    let night_change := _pct_change nightCol
    let d2 : Driver := ⟨"Night-time Temperature", latestNight, night_change,
      directionArrow night_change,
      |night_change| + (if latestNight ≥ 22 then 25 else 0)⟩
    let pm25Col ← getColE df_env "pm25_ugm3"
    let latestPm25 ← lastE pm25Col
    let pm25_change := _pct_change pm25Col
    let d3 : Driver := ⟨"PM2.5 Air Quality", latestPm25, pm25_change,
      directionArrow pm25_change,
      |pm25_change| + (if latestPm25 ≥ 35 then 20 else 0)⟩
    let searchCol ← getColE df_micro "symptom_search_index"
    let latestSearch ← lastE searchCol
    let search_change := _pct_change searchCol
    let d4 : Driver := ⟨"Symptom Search Index", latestSearch, search_change,
      directionArrow search_change, |search_change|⟩
    let pharmacyCol ← getColE df_micro "pharmacy_visits_index"
    let latestPharmacy ← lastE pharmacyCol
    let pharmacy_change := _pct_change pharmacyCol
    let d5 : Driver := ⟨"Pharmacy Respiratory Sales", latestPharmacy,
      pharmacy_change, directionArrow pharmacy_change, |pharmacy_change|⟩
    let clinicCol ← getColE df_micro "clinic_cases_index"
    let latestClinic ← lastE clinicCol
    let clinic_change := _pct_change clinicCol
    let d6 : Driver := ⟨"Clinic Respiratory Cases", latestClinic,
      clinic_change, directionArrow clinic_change, |clinic_change|⟩
    let drivers_scored := [d1, d2, d3, d4, d5, d6]
    pure ((sortByScoreDesc drivers_scored).take top_n)

/-- pandas `Series.idxmax` on a default `RangeIndex`: position of the first
occurrence of the maximum.  `bi`/`bv` track the best position and value so
far, `i` the position of the head of the remaining list. -/
def argmaxAux (bi : ℕ) (bv : ℚ) (i : ℕ) : List ℚ → ℕ
  | [] => bi
  | x :: xs => if bv < x then argmaxAux i x (i + 1) xs else argmaxAux bi bv (i + 1) xs

/-- First position of the maximum of a list (0 on the empty list). -/
def argmaxIdx : List ℚ → ℕ
  | [] => 0
  | x :: xs => argmaxAux 0 x 1 xs

/-- The KPI record built by `compute_all_kpis` (`kpi_json`), with the nested
dictionary flattened into prefixed fields.  Dates are the raw values of the
`date` column (the `strftime` re-formatting of timestamps is presentational
and elided). -/
structure KpiRecord where
  country : String
  city : String
  district : String
  period_start : ℚ
  period_end : ℚ
  forecast_days : ℕ
  data_mode : String
  last_update : ℚ
  risk_value : ℤ
  risk_level : String
  risk_delta_48h : ℤ
  surge_value_pct : ℤ
  surge_delta_48h : ℤ
  surge_subtitle : String
  combined_value : ℚ
  combined_convergence : Bool
  icu_strain_pct : ℤ
  icu_peak_date : ℚ
  alert : AlertResult
  drivers : List Driver
  sub_heat_score : ℚ
  sub_pollution_score : ℚ
  sub_micro_signal_score : ℚ
  sub_avg_vulnerability : ℚ
deriving Repr, DecidableEq

/-- `risk_engine.compute_all_kpis`: orchestrates the scorers over the latest
rows, the driver ranking over the full series, the peak date, the 48h-delta
heuristics and the alert, and assembles the KPI record.  `sigma` is the
sigmoid parameter (header note) and `now` the explicit `datetime.now()`
clock reading. -/
def compute_all_kpis (sigma : ℚ → ℚ) (df_env df_micro df_vuln : DataFrame)
    (now : ℚ) : Except EngineError KpiRecord := do
  let temp_c ← colLast df_env "temp_c"
  let nighttime_temp ← colLast df_env "nighttime_temp_c"
  let pm25 ← colLast df_env "pm25_ugm3"
  let search ← colLast df_micro "symptom_search_index"
  let pharmacy ← colLast df_micro "pharmacy_visits_index"
  let clinic ← colLast df_micro "clinic_cases_index"
  let vulnCol ← getColE df_vuln "vulnerability_score"
  let avg_vulnerability ← requireFinite (listMean? vulnCol)
  let heat_score := compute_heat_score temp_c nighttime_temp
  let pollution_score := compute_pollution_score pm25
  let micro_signal_score := compute_micro_signal_score search pharmacy clinic
  let heat_resp_risk := compute_heat_respiratory_risk_index
    heat_score pollution_score avg_vulnerability micro_signal_score
  let surge_prob := compute_respiratory_surge_probability sigma
    micro_signal_score pm25 nighttime_temp
  let combined := compute_combined_stress heat_resp_risk surge_prob
  let icu_strain := compute_icu_strain heat_resp_risk surge_prob
  let alert := compute_alert_level heat_resp_risk surge_prob combined icu_strain none
  let drivers ← identify_drivers df_env df_micro 5
  let tempCol ← getColE df_env "temp_c"
  let pm25Col ← getColE df_env "pm25_ugm3"
  let env_stress := List.zipWith (· + ·) tempCol pm25Col
  let peak_idx := argmaxIdx env_stress
  let dates ← getColE df_env "date"
  let peak_date ← optE (dates.get? peak_idx)
  let delta_risk := max 5 (pyInt ((heat_resp_risk : ℚ) * 0.17))
  let delta_surge := max 3 (pyInt ((surge_prob : ℚ) * 0.09))
  let convergence := decide (combined ≥ 0.65)
  let start_date ← optE dates.head?
  let end_date ← optE dates.getLast?
  pure ⟨"Turkey", "Ankara", "Altındağ",
    start_date, end_date, 7,
    "real (meteostat + aqicn based)", now,
    heat_resp_risk, _get_risk_level heat_resp_risk, delta_risk,
    surge_prob, delta_surge,
    "COPD/asthma exacerbations + LRTIs + respiratory distress trend",
    combined, convergence,
    icu_strain, peak_date,
    alert, drivers,
    pyRound1 heat_score, pyRound1 pollution_score,
    pyRound1 micro_signal_score, pyRound1 avg_vulnerability⟩

section ExceptLemmas

variable {ε α β γ : Type}

@[simp] theorem except_ok_bind (a : α) (f : α → Except ε β) :
    (Except.ok a : Except ε α) >>= f = f a := rfl

@[simp] theorem except_error_bind (e : ε) (f : α → Except ε β) :
    (Except.error e : Except ε α) >>= f = .error e := rfl

theorem bind_error_inv {x : Except ε α} {f : α → Except ε β} {e : ε}
    (h : x >>= f = .error e) :
    x = .error e ∨ ∃ a, x = .ok a ∧ f a = .error e := by
  cases x with
  | error e' =>
    left
    simpa using h
  | ok a =>
    right
    exact ⟨a, rfl, h⟩

theorem bind_ok_inv {x : Except ε α} {f : α → Except ε β} {b : β}
    (h : x >>= f = .ok b) :
    ∃ a, x = .ok a ∧ f a = .ok b := by
  cases x with
  | error e' => simp at h
  | ok a => exact ⟨a, rfl, h⟩

theorem map_bind_congr (g : β → γ) (x : Except ε α) (f f' : α → Except ε β)
    (h : ∀ a, (f a).map g = (f' a).map g) :
    (x >>= f).map g = (x >>= f').map g := by
  cases x with
  | error e => rfl
  | ok a => exact h a

end ExceptLemmas

theorem optE_error {o : Option ℚ} {e : EngineError} (h : optE o = .error e) :
    e = .schemaMismatch := by
  cases o with
  | none => simp [optE] at h; simp [h]
  | some v => simp [optE] at h

theorem optE_ok {o : Option ℚ} {v : ℚ} (h : o = some v) : optE o = .ok v := by
  simp [optE, h]

theorem lastE_error {l : List ℚ} {e : EngineError} (h : lastE l = .error e) :
    e = .schemaMismatch := optE_error h

theorem getColE_error {df : DataFrame} {c : String} {e : EngineError}
    (h : getColE df c = .error e) : e = .schemaMismatch := by
  unfold getColE at h
  cases hc : df.getCol c <;> rw [hc] at h <;> simp at h
  simp [h]

theorem getColE_ok {df : DataFrame} {c : String} {l : List ℚ}
    (h : df.getCol c = some l) : getColE df c = .ok l := by
  simp [getColE, h]

theorem getColE_ok_inv {df : DataFrame} {c : String} {l : List ℚ}
    (h : getColE df c = .ok l) : df.getCol c = some l := by
  unfold getColE at h
  cases hc : df.getCol c <;> rw [hc] at h <;> simp_all

theorem colLast_error {df : DataFrame} {c : String} {e : EngineError}
    (hn : df.nrows ≠ 0) (h : colLast df c = .error e) : e = .schemaMismatch := by
  unfold colLast at h
  rw [if_neg hn] at h
  cases hc : df.getCol c <;> rw [hc] at h
  · simp at h
    simp [h]
  · rename_i l
    simp only [] at h
    cases hl : l.getLast? <;> rw [hl] at h <;> simp_all

theorem colLast_empty {df : DataFrame} {c : String} (hn : df.nrows = 0) :
    colLast df c = .error .emptySeries := by
  simp [colLast, hn]

theorem colLast_ok {df : DataFrame} {c : String} {l : List ℚ} {v : ℚ}
    (hn : df.nrows ≠ 0) (hc : df.getCol c = some l) (hl : l.getLast? = some v) :
    colLast df c = .ok v := by
  simp [colLast, hn, hc, hl]

theorem colLast_ok_getCol {df : DataFrame} {c : String} {v : ℚ}
    (h : colLast df c = .ok v) : df.getCol c ≠ none := by
  unfold colLast at h
  intro hc
  by_cases hn : df.nrows = 0
  · rw [if_pos hn] at h
    simp at h
  · rw [if_neg hn, hc] at h
    simp at h

theorem floor_le_pyRound (x : ℚ) : ⌊x⌋ ≤ pyRound x := by
  unfold pyRound
  split_ifs <;> omega

theorem pyRound_le_floor_add_one (x : ℚ) : pyRound x ≤ ⌊x⌋ + 1 := by
  unfold pyRound
  split_ifs <;> omega

/-- Python's `round` is monotone non-decreasing. -/
theorem pyRound_mono {x y : ℚ} (h : x ≤ y) : pyRound x ≤ pyRound y := by
  have hf : ⌊x⌋ ≤ ⌊y⌋ := Int.floor_le_floor h
  by_cases hlt : ⌊x⌋ < ⌊y⌋
  · have h1 := pyRound_le_floor_add_one x
    have h2 := floor_le_pyRound y
    omega
  · have heq : ⌊x⌋ = ⌊y⌋ := le_antisymm hf (by omega)
    have heqQ : ((⌊x⌋ : ℤ) : ℚ) = ((⌊y⌋ : ℤ) : ℚ) := by exact_mod_cast heq
    unfold pyRound
    split_ifs <;> first | omega | (exfalso; linarith)

theorem pyRound_intCast (n : ℤ) : pyRound (n : ℚ) = n := by
  unfold pyRound
  rw [Int.floor_intCast]
  norm_num

theorem pyRound_le_of_le {x : ℚ} {n : ℤ} (h : x ≤ (n : ℚ)) : pyRound x ≤ n := by
  have := pyRound_mono h
  rwa [pyRound_intCast] at this

theorem le_pyRound_of_le {n : ℤ} {x : ℚ} (h : (n : ℚ) ≤ x) : n ≤ pyRound x := by
  have := pyRound_mono h
  rwa [pyRound_intCast] at this

/-- `_normalize` always lands in `[0, 100]`. -/
theorem normalize_mem (v mn mx : ℚ) :
    0 ≤ _normalize v mn mx ∧ _normalize v mn mx ≤ 100 := by
  unfold _normalize
  split_ifs with h
  · norm_num
  · constructor
    · exact le_max_left 0 _
    · exact max_le (by norm_num) (min_le_left _ _)

/-- `_normalize` is monotone in its value argument when the range is
non-degenerate and rightly ordered. -/
theorem normalize_mono {v v' mn mx : ℚ} (hlt : mn < mx) (h : v ≤ v') :
    _normalize v mn mx ≤ _normalize v' mn mx := by
  unfold _normalize
  rw [if_neg (ne_of_gt hlt), if_neg (ne_of_gt hlt)]
  have hd : 0 < mx - mn := by linarith
  gcongr

theorem length_insertByScoreDesc (d : Driver) (l : List Driver) :
    (insertByScoreDesc d l).length = l.length + 1 := by
  induction l with
  | nil => rfl
  | cons x xs ih =>
    unfold insertByScoreDesc
    split_ifs <;> simp [ih]

theorem length_sortByScoreDesc (l : List Driver) :
    (sortByScoreDesc l).length = l.length := by
  induction l with
  | nil => rfl
  | cons x xs ih =>
    unfold sortByScoreDesc
    rw [length_insertByScoreDesc, ih, List.length_cons]

theorem mem_insertByScoreDesc {d x : Driver} {l : List Driver}
    (h : x ∈ insertByScoreDesc d l) : x = d ∨ x ∈ l := by
  induction l with
  | nil => simpa [insertByScoreDesc] using h
  | cons y ys ih =>
    by_cases hc : y.score ≤ d.score
    · simp only [insertByScoreDesc, if_pos hc] at h
      simpa using h
    · simp only [insertByScoreDesc, if_neg hc] at h
      rcases List.mem_cons.mp h with h1 | h1
      · exact Or.inr (by simp [h1])
      · rcases ih h1 with h2 | h2
        · exact Or.inl h2
        · exact Or.inr (by simp [h2])

theorem mem_sortByScoreDesc {x : Driver} {l : List Driver}
    (h : x ∈ sortByScoreDesc l) : x ∈ l := by
  induction l with
  | nil => simp [sortByScoreDesc] at h
  | cons y ys ih =>
    unfold sortByScoreDesc at h
    rcases mem_insertByScoreDesc h with h1 | h1
    · simp [h1]
    · simp [ih h1]

theorem emergencyReasons_ne_nil_iff (th : Thresholds) (r s i : ℤ) :
    emergencyReasons th r s i ≠ [] ↔
      (r ≥ th.emergency_heat_risk ∨ s ≥ th.emergency_surge_prob
        ∨ i ≥ th.emergency_icu_strain) := by
  unfold emergencyReasons
  split_ifs <;> simp_all

theorem warningReasons_ne_nil_iff (th : Thresholds) (r s : ℤ) (c : ℚ) :
    warningReasons th r s c ≠ [] ↔
      (r ≥ th.warning_heat_risk ∨ s ≥ th.warning_surge_prob ∨ c ≥ (0.65 : ℚ)) := by
  unfold warningReasons
  split_ifs <;> simp_all

/-- Value of the alert classifier, characterized by severity-first rules. -/
theorem compute_alert_level_value (r s : ℤ) (c : ℚ) (i : ℤ) (tho : Option Thresholds) :
    (compute_alert_level r s c i tho).value =
      (if r ≥ (tho.getD defaultThresholds).emergency_heat_risk
          ∨ s ≥ (tho.getD defaultThresholds).emergency_surge_prob
          ∨ i ≥ (tho.getD defaultThresholds).emergency_icu_strain then "EMERGENCY"
      else if r ≥ (tho.getD defaultThresholds).warning_heat_risk
          ∨ s ≥ (tho.getD defaultThresholds).warning_surge_prob
          ∨ c ≥ (0.65 : ℚ) then "WARNING"
      else if r ≥ (tho.getD defaultThresholds).watch_heat_risk
          ∨ s ≥ (tho.getD defaultThresholds).watch_surge_prob then "WATCH"
      else "NORMAL") := by
  show (if emergencyReasons (tho.getD defaultThresholds) r s i ≠ [] then _
    else if warningReasons (tho.getD defaultThresholds) r s c ≠ [] then _
    else if r ≥ (tho.getD defaultThresholds).watch_heat_risk
        ∨ s ≥ (tho.getD defaultThresholds).watch_surge_prob then _
    else _ : AlertResult).value = _
  by_cases he : r ≥ (tho.getD defaultThresholds).emergency_heat_risk
      ∨ s ≥ (tho.getD defaultThresholds).emergency_surge_prob
      ∨ i ≥ (tho.getD defaultThresholds).emergency_icu_strain
  · rw [if_pos ((emergencyReasons_ne_nil_iff _ r s i).mpr he), if_pos he]
  · rw [if_neg fun hh => he ((emergencyReasons_ne_nil_iff _ r s i).mp hh), if_neg he]
    by_cases hw : r ≥ (tho.getD defaultThresholds).warning_heat_risk
        ∨ s ≥ (tho.getD defaultThresholds).warning_surge_prob ∨ c ≥ (0.65 : ℚ)
    · rw [if_pos ((warningReasons_ne_nil_iff _ r s c).mpr hw), if_pos hw]
    · rw [if_neg fun hh => hw ((warningReasons_ne_nil_iff _ r s c).mp hh), if_neg hw]
      split_ifs <;> rfl

/-- Decomposition of `identify_drivers` on frames exposing all six expected
columns: the result is the score-sorted six-candidate list, truncated to
`top_n`. -/
theorem identify_drivers_eq {df_env df_micro : DataFrame} (top_n : ℕ)
    {tc nc pc sc phc cc : List ℚ} {tv nv pv sv phv cv : ℚ}
    (henv : df_env.nrows ≠ 0) (hmicro : df_micro.nrows ≠ 0)
    (htc : df_env.getCol "temp_c" = some tc) (htv : tc.getLast? = some tv)
    (hnc : df_env.getCol "nighttime_temp_c" = some nc) (hnv : nc.getLast? = some nv)
    (hpc : df_env.getCol "pm25_ugm3" = some pc) (hpv : pc.getLast? = some pv)
    (hsc : df_micro.getCol "symptom_search_index" = some sc)
    (hsv : sc.getLast? = some sv)
    (hphc : df_micro.getCol "pharmacy_visits_index" = some phc)
    (hphv : phc.getLast? = some phv)
    (hcc : df_micro.getCol "clinic_cases_index" = some cc)
    (hcv : cc.getLast? = some cv) :
    identify_drivers df_env df_micro top_n = .ok
      ((sortByScoreDesc
        [⟨"Daytime Temperature", tv, _pct_change tc,
          directionArrow (_pct_change tc),
          |_pct_change tc| + (if tv ≥ 35 then 20 else 0)⟩,
         ⟨"Night-time Temperature", nv, _pct_change nc,
          directionArrow (_pct_change nc),
          |_pct_change nc| + (if nv ≥ 22 then 25 else 0)⟩,
         ⟨"PM2.5 Air Quality", pv, _pct_change pc,
          directionArrow (_pct_change pc),
          |_pct_change pc| + (if pv ≥ 35 then 20 else 0)⟩,
         ⟨"Symptom Search Index", sv, _pct_change sc,
          directionArrow (_pct_change sc), |_pct_change sc|⟩,
         ⟨"Pharmacy Respiratory Sales", phv, _pct_change phc,
          directionArrow (_pct_change phc), |_pct_change phc|⟩,
         ⟨"Clinic Respiratory Cases", cv, _pct_change cc,
          directionArrow (_pct_change cc), |_pct_change cc|⟩]).take top_n) := by
  unfold identify_drivers
  rw [if_neg henv, if_neg hmicro]
  simp only [getColE_ok htc, getColE_ok hnc, getColE_ok hpc, getColE_ok hsc,
    getColE_ok hphc, getColE_ok hcc, lastE, htv, hnv, hpv, hsv, hphv, hcv,
    optE, except_ok_bind, pure, Except.pure]

/-- On frames with at least one row each, `identify_drivers` can only fail
with a schema mismatch. -/
theorem identify_drivers_error {df_env df_micro : DataFrame} {top_n : ℕ}
    {e : EngineError} (henv : df_env.nrows ≠ 0) (hmicro : df_micro.nrows ≠ 0)
    (h : identify_drivers df_env df_micro top_n = .error e) :
    e = .schemaMismatch := by
  unfold identify_drivers at h
  rw [if_neg henv, if_neg hmicro] at h
  rcases bind_error_inv h with h1 | ⟨a1, ha1, h⟩
  · exact getColE_error h1
  rcases bind_error_inv h with h1 | ⟨a2, ha2, h⟩
  · exact lastE_error h1
  rcases bind_error_inv h with h1 | ⟨a3, ha3, h⟩
  · exact getColE_error h1
  rcases bind_error_inv h with h1 | ⟨a4, ha4, h⟩
  · exact lastE_error h1
  rcases bind_error_inv h with h1 | ⟨a5, ha5, h⟩
  · exact getColE_error h1
  rcases bind_error_inv h with h1 | ⟨a6, ha6, h⟩
  · exact lastE_error h1
  rcases bind_error_inv h with h1 | ⟨a7, ha7, h⟩
  · exact getColE_error h1
  rcases bind_error_inv h with h1 | ⟨a8, ha8, h⟩
  · exact lastE_error h1
  rcases bind_error_inv h with h1 | ⟨a9, ha9, h⟩
  · exact getColE_error h1
  rcases bind_error_inv h with h1 | ⟨a10, ha10, h⟩
  · exact lastE_error h1
  rcases bind_error_inv h with h1 | ⟨a11, ha11, h⟩
  · exact getColE_error h1
  rcases bind_error_inv h with h1 | ⟨a12, ha12, h⟩
  · exact lastE_error h1
  simp [pure, Except.pure] at h

/-- `requireFinite` can only fail with the NaN-rounding `ValueError`. -/
theorem requireFinite_error {o : Option ℚ} {e : EngineError}
    (h : requireFinite o = .error e) : e = .valueError := by
  cases o with
  | none => simp [requireFinite] at h; simp [h]
  | some v => simp [requireFinite] at h

theorem listMean_ne_nil {l : List ℚ} (hl : l ≠ []) :
    listMean? l = some (l.sum / l.length) := by
  unfold listMean?
  rw [if_neg]
  simpa using hl

/-- On input series with at least one row each, `compute_all_kpis` can only
fail with a schema mismatch or with the NaN-rounding `ValueError`. -/
theorem compute_all_kpis_error {sigma : ℚ → ℚ}
    {df_env df_micro df_vuln : DataFrame} {now : ℚ} {e : EngineError}
    (henv : df_env.nrows ≠ 0) (hmicro : df_micro.nrows ≠ 0)
    (h : compute_all_kpis sigma df_env df_micro df_vuln now = .error e) :
    e = .schemaMismatch ∨ e = .valueError := by
  unfold compute_all_kpis at h
  rcases bind_error_inv h with h1 | ⟨a1, ha1, h⟩
  · exact Or.inl (colLast_error henv h1)
  rcases bind_error_inv h with h1 | ⟨a2, ha2, h⟩
  · exact Or.inl (colLast_error henv h1)
  rcases bind_error_inv h with h1 | ⟨a3, ha3, h⟩
  · exact Or.inl (colLast_error henv h1)
  rcases bind_error_inv h with h1 | ⟨a4, ha4, h⟩
  · exact Or.inl (colLast_error hmicro h1)
  rcases bind_error_inv h with h1 | ⟨a5, ha5, h⟩
  · exact Or.inl (colLast_error hmicro h1)
  rcases bind_error_inv h with h1 | ⟨a6, ha6, h⟩
  · exact Or.inl (colLast_error hmicro h1)
  rcases bind_error_inv h with h1 | ⟨a7, ha7, h⟩
  · exact Or.inl (getColE_error h1)
  rcases bind_error_inv h with h1 | ⟨a8, ha8, h⟩
  · exact Or.inr (requireFinite_error h1)
  rcases bind_error_inv h with h1 | ⟨a9, ha9, h⟩
  · exact Or.inl (identify_drivers_error henv hmicro h1)
  rcases bind_error_inv h with h1 | ⟨a10, ha10, h⟩
  · exact Or.inl (getColE_error h1)
  rcases bind_error_inv h with h1 | ⟨a11, ha11, h⟩
  · exact Or.inl (getColE_error h1)
  rcases bind_error_inv h with h1 | ⟨a12, ha12, h⟩
  · exact Or.inl (getColE_error h1)
  rcases bind_error_inv h with h1 | ⟨a13, ha13, h⟩
  · exact Or.inl (optE_error h1)
  rcases bind_error_inv h with h1 | ⟨a14, ha14, h⟩
  · exact Or.inl (optE_error h1)
  rcases bind_error_inv h with h1 | ⟨a15, ha15, h⟩
  · exact Or.inl (optE_error h1)
  simp [pure, Except.pure] at h

/-- With both series non-empty and a non-empty vulnerability column, the
NaN path is closed and schema mismatch is the only possible failure. -/
theorem compute_all_kpis_error_vuln {sigma : ℚ → ℚ}
    {df_env df_micro df_vuln : DataFrame} {now : ℚ} {e : EngineError}
    {vc : List ℚ}
    (henv : df_env.nrows ≠ 0) (hmicro : df_micro.nrows ≠ 0)
    (hvc : df_vuln.getCol "vulnerability_score" = some vc) (hvne : vc ≠ [])
    (h : compute_all_kpis sigma df_env df_micro df_vuln now = .error e) :
    e = .schemaMismatch := by
  unfold compute_all_kpis at h
  rcases bind_error_inv h with h1 | ⟨a1, ha1, h⟩
  · exact colLast_error henv h1
  rcases bind_error_inv h with h1 | ⟨a2, ha2, h⟩
  · exact colLast_error henv h1
  rcases bind_error_inv h with h1 | ⟨a3, ha3, h⟩
  · exact colLast_error henv h1
  rcases bind_error_inv h with h1 | ⟨a4, ha4, h⟩
  · exact colLast_error hmicro h1
  rcases bind_error_inv h with h1 | ⟨a5, ha5, h⟩
  · exact colLast_error hmicro h1
  rcases bind_error_inv h with h1 | ⟨a6, ha6, h⟩
  · exact colLast_error hmicro h1
  rcases bind_error_inv h with h1 | ⟨a7, ha7, h⟩
  · exact getColE_error h1
  have ha7vc : a7 = vc := by
    have := getColE_ok hvc
    rw [this] at ha7
    simpa using ha7.symm
  rcases bind_error_inv h with h1 | ⟨a8, ha8, h⟩
  · rw [ha7vc, listMean_ne_nil hvne] at h1
    simp [requireFinite] at h1
  rcases bind_error_inv h with h1 | ⟨a9, ha9, h⟩
  · exact identify_drivers_error henv hmicro h1
  rcases bind_error_inv h with h1 | ⟨a10, ha10, h⟩
  · exact getColE_error h1
  rcases bind_error_inv h with h1 | ⟨a11, ha11, h⟩
  · exact getColE_error h1
  rcases bind_error_inv h with h1 | ⟨a12, ha12, h⟩
  · exact getColE_error h1
  rcases bind_error_inv h with h1 | ⟨a13, ha13, h⟩
  · exact optE_error h1
  rcases bind_error_inv h with h1 | ⟨a14, ha14, h⟩
  · exact optE_error h1
  rcases bind_error_inv h with h1 | ⟨a15, ha15, h⟩
  · exact optE_error h1
  simp [pure, Except.pure] at h

/-- A zero-row vulnerability table whose score column is present makes the
run fail with the NaN-rounding `ValueError` (the mean of the empty column
is NaN, and the risk index rounds it), for every pair of well-columned,
non-empty input series. -/
theorem compute_all_kpis_nan (sigma : ℚ → ℚ)
    {df_env df_micro df_vuln : DataFrame} (now : ℚ)
    {tc nc pc sc phc cc : List ℚ} {tv nv pv sv phv cv : ℚ}
    (henv : df_env.nrows ≠ 0) (hmicro : df_micro.nrows ≠ 0)
    (htc : df_env.getCol "temp_c" = some tc) (htv : tc.getLast? = some tv)
    (hnc : df_env.getCol "nighttime_temp_c" = some nc) (hnv : nc.getLast? = some nv)
    (hpc : df_env.getCol "pm25_ugm3" = some pc) (hpv : pc.getLast? = some pv)
    (hsc : df_micro.getCol "symptom_search_index" = some sc)
    (hsv : sc.getLast? = some sv)
    (hphc : df_micro.getCol "pharmacy_visits_index" = some phc)
    (hphv : phc.getLast? = some phv)
    (hcc : df_micro.getCol "clinic_cases_index" = some cc)
    (hcv : cc.getLast? = some cv)
    (hvc : df_vuln.getCol "vulnerability_score" = some []) :
    compute_all_kpis sigma df_env df_micro df_vuln now
      = .error .valueError := by
  unfold compute_all_kpis
  simp only [colLast_ok henv htc htv, colLast_ok henv hnc hnv,
    colLast_ok henv hpc hpv, colLast_ok hmicro hsc hsv,
    colLast_ok hmicro hphc hphv, colLast_ok hmicro hcc hcv,
    getColE_ok hvc, listMean?, requireFinite, List.length_nil,
    except_ok_bind, except_error_bind, if_pos]

/-- On well-formed inputs exposing every expected column, with a non-NaN
vulnerability mean, `compute_all_kpis` succeeds, and the `last_update`
field of the result is exactly the clock reading. -/
theorem compute_all_kpis_ok (sigma : ℚ → ℚ)
    {df_env df_micro df_vuln : DataFrame} (now : ℚ)
    {tc nc pc sc phc cc vc dc : List ℚ} {tv nv pv sv phv cv mv pd sd ed : ℚ}
    (henv : df_env.nrows ≠ 0) (hmicro : df_micro.nrows ≠ 0)
    (htc : df_env.getCol "temp_c" = some tc) (htv : tc.getLast? = some tv)
    (hnc : df_env.getCol "nighttime_temp_c" = some nc) (hnv : nc.getLast? = some nv)
    (hpc : df_env.getCol "pm25_ugm3" = some pc) (hpv : pc.getLast? = some pv)
    (hsc : df_micro.getCol "symptom_search_index" = some sc)
    (hsv : sc.getLast? = some sv)
    (hphc : df_micro.getCol "pharmacy_visits_index" = some phc)
    (hphv : phc.getLast? = some phv)
    (hcc : df_micro.getCol "clinic_cases_index" = some cc)
    (hcv : cc.getLast? = some cv)
    (hvc : df_vuln.getCol "vulnerability_score" = some vc)
    (hml : listMean? vc = some mv)
    (hdc : df_env.getCol "date" = some dc)
    (hpd : dc.get? (argmaxIdx (List.zipWith (· + ·) tc pc)) = some pd)
    (hsd : dc.head? = some sd) (hed : dc.getLast? = some ed) :
    ∃ k, compute_all_kpis sigma df_env df_micro df_vuln now = .ok k
      ∧ k.last_update = now := by
  unfold compute_all_kpis
  simp only [colLast_ok henv htc htv, colLast_ok henv hnc hnv,
    colLast_ok henv hpc hpv, colLast_ok hmicro hsc hsv,
    colLast_ok hmicro hphc hphv, colLast_ok hmicro hcc hcv,
    getColE_ok hvc, hml, requireFinite, getColE_ok htc, getColE_ok hpc,
    getColE_ok hdc,
    identify_drivers_eq 5 henv hmicro htc htv hnc hnv hpc hpv hsc hsv hphc hphv
      hcc hcv,
    hpd, hsd, hed, optE, except_ok_bind, pure, Except.pure]
  exact ⟨_, rfl, rfl⟩

/-- C8: for every value and bounds, `_normalize` returns a value in
`[0, 100]`; when the bounds coincide it returns exactly 50 regardless of the
value; otherwise it linearly rescales and clamps to `[0, 100]`, even for
values outside the bounds. -/
theorem C8_normalize_spec (v mn mx : ℚ) :
    0 ≤ _normalize v mn mx ∧ _normalize v mn mx ≤ 100
    ∧ (mn = mx → _normalize v mn mx = 50)
    ∧ (mn ≠ mx → _normalize v mn mx
        = max 0 (min 100 ((v - mn) / (mx - mn) * 100))) := by
  refine ⟨(normalize_mem v mn mx).1, (normalize_mem v mn mx).2, ?_, ?_⟩
  · intro h
    rw [_normalize, if_pos h.symm]
  · intro h
    rw [_normalize, if_neg fun hh => h hh.symm]

/-- Witness for C8 at concrete inputs: degenerate bounds give the 50
midpoint, and an out-of-range value is clamped to 100. -/
theorem C8_witness : _normalize 7 5 5 = 50 ∧ _normalize 120 0 100 = 100 := by
  constructor
  · exact (C8_normalize_spec 7 5 5).2.2.1 rfl
  · have h := (C8_normalize_spec 120 0 100).2.2.2 (by norm_num)
    rw [h]
    norm_num

/-- C10 (implicit): the WARNING comparison of the combined stress index is
against the fixed literal `0.65` and is independent of the injected
thresholds: whenever no EMERGENCY condition fires and `combined ≥ 0.65`,
the alert is WARNING and "Multi-signal Threshold" is among its reasons,
for every thresholds mapping. -/
theorem C10_combined_threshold_fixed (th : Thresholds) (r s i : ℤ) (c : ℚ)
    (h1 : r < th.emergency_heat_risk) (h2 : s < th.emergency_surge_prob)
    (h3 : i < th.emergency_icu_strain) (h4 : (0.65 : ℚ) ≤ c) :
    (compute_alert_level r s c i (some th)).value = "WARNING"
    ∧ "Multi-signal Threshold" ∈ warningReasons th r s c := by
  have hmem : "Multi-signal Threshold" ∈ warningReasons th r s c := by
    unfold warningReasons
    rw [if_pos h4]
    simp
  have her : ¬ emergencyReasons th r s i ≠ [] := by
    rw [emergencyReasons_ne_nil_iff]
    push_neg
    exact ⟨h1, h2, h3⟩
  have hwr : warningReasons th r s c ≠ [] := by
    intro hnil
    rw [hnil] at hmem
    exact List.not_mem_nil _ hmem
  refine ⟨?_, hmem⟩
  show (if emergencyReasons th r s i ≠ [] then _
    else if warningReasons th r s c ≠ [] then _
    else if r ≥ th.watch_heat_risk ∨ s ≥ th.watch_surge_prob then _
    else _ : AlertResult).value = _
  rw [if_neg her, if_pos hwr]

/-- Witness for C10 at a concrete thresholds mapping and inputs. -/
theorem C10_witness :
    (compute_alert_level 0 0 (9/10) 0 (some ⟨1, 2, 1000, 3, 4, 1000, 1000⟩)).value
      = "WARNING" := by
  exact (C10_combined_threshold_fixed ⟨1, 2, 1000, 3, 4, 1000, 1000⟩ 0 0 0 (9/10)
    (by norm_num) (by norm_num) (by norm_num) (by norm_num)).1

/-- C7: the driver percent change is total: it is 0 on series shorter than 2
rows, 0 when the early-period mean is exactly 0, and otherwise the
percentage change between the mean of the first `max(1, len//3)` rows and
the mean of the last `max(1, len//3)` rows, rounded to 1 decimal. -/
theorem C7_pct_change_total (s : List ℚ) :
    (s.length < 2 → _pct_change s = 0)
    ∧ (¬ s.length < 2 → listMean (s.take (max 1 (s.length / 3))) = 0 →
        _pct_change s = 0)
    ∧ (¬ s.length < 2 → listMean (s.take (max 1 (s.length / 3))) ≠ 0 →
        _pct_change s =
          pyRound1 ((listMean (s.drop (s.length - max 1 (s.length / 3)))
            - listMean (s.take (max 1 (s.length / 3))))
            / listMean (s.take (max 1 (s.length / 3))) * 100)) := by
  refine ⟨?_, ?_, ?_⟩
  · intro h1
    rw [_pct_change, if_pos h1]
  · intro h1 h2
    rw [_pct_change, if_neg h1]
    simp only [if_pos h2]
  · intro h1 h2
    rw [_pct_change, if_neg h1]
    simp only [if_neg h2]
    rfl

/-- Witness for C7: a one-row series, a series whose early mean is zero,
and a genuine two-row change. -/
theorem C7_witness :
    _pct_change [(3 : ℚ)] = 0 ∧ _pct_change [(0 : ℚ), 5] = 0
    ∧ _pct_change [(30 : ℚ), 33] = 10 := by
  refine ⟨(C7_pct_change_total [(3 : ℚ)]).1 (by norm_num), ?_, ?_⟩
  · exact (C7_pct_change_total [(0 : ℚ), 5]).2.1 (by norm_num)
      (by norm_num [listMean])
  · have h := (C7_pct_change_total [(30 : ℚ), 33]).2.2 (by norm_num)
      (by norm_num [listMean])
    rw [h]
    norm_num [listMean, pyRound1, pyRound]

/-- Counterexample to C1 as stated: `compute_micro_signal_score` and
`compute_combined_stress` have no clamping in the source, so out-of-range
inputs produce out-of-range outputs: micro-signal score 300 for inputs
(300, 300, 300) and combined stress 1.2 for (200, 0). -/
theorem C1_counterexample :
    100 < compute_micro_signal_score 300 300 300
    ∧ 1 < compute_combined_stress 200 0 := by
  constructor
  · norm_num [compute_micro_signal_score]
  · norm_num [compute_combined_stress, pyRound2, pyRound]

/-- C1 as amended: heat score, pollution score, risk index, surge
probability and ICU strain are clamped into their documented ranges for
*all* numeric inputs; micro-signal score lies in `[0, 100]` and combined
stress in `[0, 1]` only under the precondition that their inputs lie in
their own documented `[0, 100]` ranges (the source does not clamp these
two). -/
theorem C1_ranges (t n pm hs ps vs ms : ℚ) (sigma : ℚ → ℚ)
    (mi pm2 nt s p c : ℚ) (r sg : ℤ) :
    (0 ≤ compute_heat_score t n ∧ compute_heat_score t n ≤ 100)
    ∧ (0 ≤ compute_pollution_score pm ∧ compute_pollution_score pm ≤ 100)
    ∧ (0 ≤ compute_heat_respiratory_risk_index hs ps vs ms
        ∧ compute_heat_respiratory_risk_index hs ps vs ms ≤ 100)
    ∧ (0 ≤ compute_respiratory_surge_probability sigma mi pm2 nt
        ∧ compute_respiratory_surge_probability sigma mi pm2 nt ≤ 100)
    ∧ (0 ≤ compute_icu_strain r sg ∧ compute_icu_strain r sg ≤ 40)
    ∧ (0 ≤ s → s ≤ 100 → 0 ≤ p → p ≤ 100 → 0 ≤ c → c ≤ 100 →
        0 ≤ compute_micro_signal_score s p c
          ∧ compute_micro_signal_score s p c ≤ 100)
    ∧ (0 ≤ r → r ≤ 100 → 0 ≤ sg → sg ≤ 100 →
        0 ≤ compute_combined_stress r sg ∧ compute_combined_stress r sg ≤ 1) := by
  refine ⟨normalize_mem _ 40 105, normalize_mem pm 10 80, ?_, ?_, ?_, ?_, ?_⟩
  · exact ⟨le_max_left 0 _, max_le (by norm_num) (min_le_left _ _)⟩
  · exact ⟨le_max_left 0 _, max_le (by norm_num) (min_le_left _ _)⟩
  · exact ⟨le_max_left 0 _, max_le (by norm_num) (min_le_left _ _)⟩
  · intro hs0 hs1 hp0 hp1 hc0 hc1
    unfold compute_micro_signal_score
    constructor <;> nlinarith
  · intro hr0 hr1 hsg0 hsg1
    have hr0Q : (0 : ℚ) ≤ (r : ℚ) := by exact_mod_cast hr0
    have hr1Q : (r : ℚ) ≤ 100 := by exact_mod_cast hr1
    have hsg0Q : (0 : ℚ) ≤ (sg : ℚ) := by exact_mod_cast hsg0
    have hsg1Q : (sg : ℚ) ≤ 100 := by exact_mod_cast hsg1
    unfold compute_combined_stress pyRound2
    have h0 : (0 : ℤ) ≤ pyRound ((0.6 * ((r : ℚ) / 100) + 0.4 * ((sg : ℚ) / 100)) * 100) := by
      apply le_pyRound_of_le
      push_cast
      nlinarith
    have h100 : pyRound ((0.6 * ((r : ℚ) / 100) + 0.4 * ((sg : ℚ) / 100)) * 100) ≤ 100 := by
      apply pyRound_le_of_le
      push_cast
      nlinarith
    have h0Q : (0 : ℚ) ≤ (pyRound ((0.6 * ((r : ℚ) / 100) + 0.4 * ((sg : ℚ) / 100)) * 100) : ℚ) := by
      exact_mod_cast h0
    have h100Q : (pyRound ((0.6 * ((r : ℚ) / 100) + 0.4 * ((sg : ℚ) / 100)) * 100) : ℚ) ≤ 100 := by
      exact_mod_cast h100
    constructor <;> linarith

/-- Witness for C1 discharging the in-range preconditions of the
micro-signal and combined-stress parts at concrete inputs. -/
theorem C1_witness :
    (0 ≤ compute_micro_signal_score 50 40 30
      ∧ compute_micro_signal_score 50 40 30 ≤ 100)
    ∧ (0 ≤ compute_combined_stress 80 70 ∧ compute_combined_stress 80 70 ≤ 1) := by
  constructor
  · exact (C1_ranges 0 0 0 0 0 0 0 (fun x => x) 0 0 0 50 40 30 0 0).2.2.2.2.2.1
      (by norm_num) (by norm_num) (by norm_num) (by norm_num) (by norm_num)
      (by norm_num)
  · exact (C1_ranges 0 0 0 0 0 0 0 (fun x => x) 0 0 0 0 0 0 80 70).2.2.2.2.2.2
      (by norm_num) (by norm_num) (by norm_num) (by norm_num)

/-- C9: heat score, pollution score and the heat-respiratory risk index are
monotone non-decreasing in every single input, the others held fixed. -/
theorem C9_monotone (t t' n n' pm pm' hs hs' ps ps' vs vs' ms ms' : ℚ) :
    (t ≤ t' → compute_heat_score t n ≤ compute_heat_score t' n)
    ∧ (n ≤ n' → compute_heat_score t n ≤ compute_heat_score t n')
    ∧ (pm ≤ pm' → compute_pollution_score pm ≤ compute_pollution_score pm')
    ∧ (hs ≤ hs' → compute_heat_respiratory_risk_index hs ps vs ms
        ≤ compute_heat_respiratory_risk_index hs' ps vs ms)
    ∧ (ps ≤ ps' → compute_heat_respiratory_risk_index hs ps vs ms
        ≤ compute_heat_respiratory_risk_index hs ps' vs ms)
    ∧ (vs ≤ vs' → compute_heat_respiratory_risk_index hs ps vs ms
        ≤ compute_heat_respiratory_risk_index hs ps vs' ms)
    ∧ (ms ≤ ms' → compute_heat_respiratory_risk_index hs ps vs ms
        ≤ compute_heat_respiratory_risk_index hs ps vs ms') := by
  refine ⟨?_, ?_, ?_, ?_, ?_, ?_, ?_⟩
  · intro h
    exact normalize_mono (by norm_num) (by linarith)
  · intro h
    exact normalize_mono (by norm_num) (by nlinarith)
  · intro h
    exact normalize_mono (by norm_num) h
  all_goals intro h
  all_goals exact max_le_max le_rfl (min_le_min le_rfl (pyRound_mono (by nlinarith)))

/-- Witness for C9 discharging each monotonicity hypothesis at concrete
inputs. -/
theorem C9_witness :
    compute_heat_score 30 20 ≤ compute_heat_score 35 20
    ∧ compute_heat_score 30 20 ≤ compute_heat_score 30 25
    ∧ compute_pollution_score 20 ≤ compute_pollution_score 60
    ∧ compute_heat_respiratory_risk_index 50 50 50 50
        ≤ compute_heat_respiratory_risk_index 80 50 50 50
    ∧ compute_heat_respiratory_risk_index 50 50 50 50
        ≤ compute_heat_respiratory_risk_index 50 80 50 50
    ∧ compute_heat_respiratory_risk_index 50 50 50 50
        ≤ compute_heat_respiratory_risk_index 50 50 80 50
    ∧ compute_heat_respiratory_risk_index 50 50 50 50
        ≤ compute_heat_respiratory_risk_index 50 50 50 80 := by
  refine ⟨(C9_monotone 30 35 20 20 0 0 0 0 0 0 0 0 0 0).1 (by norm_num),
    (C9_monotone 30 30 20 25 0 0 0 0 0 0 0 0 0 0).2.1 (by norm_num),
    (C9_monotone 0 0 0 0 20 60 0 0 0 0 0 0 0 0).2.2.1 (by norm_num),
    (C9_monotone 0 0 0 0 0 0 50 80 50 50 50 50 50 50).2.2.2.1 (by norm_num),
    (C9_monotone 0 0 0 0 0 0 50 50 50 80 50 50 50 50).2.2.2.2.1 (by norm_num),
    (C9_monotone 0 0 0 0 0 0 50 50 50 50 50 80 50 50).2.2.2.2.2.1 (by norm_num),
    (C9_monotone 0 0 0 0 0 0 50 50 50 50 50 50 50 80).2.2.2.2.2.2 (by norm_num)⟩

/-- C2: with the default thresholds, the alert classifier is total (always
exactly one of the four levels), evaluates highest severity first
(EMERGENCY: risk ≥ 85 or surge ≥ 70 or ICU strain ≥ 30; WARNING: risk ≥ 70
or surge ≥ 55 or combined ≥ 0.65; WATCH: risk ≥ 55 or surge ≥ 35; else
NORMAL), and classifies the four reference quadruples as EMERGENCY,
WARNING, WATCH and NORMAL respectively. -/
theorem C2_alert_classifier (r s : ℤ) (c : ℚ) (i : ℤ) :
    (compute_alert_level r s c i none).value ∈
      (["NORMAL", "WATCH", "WARNING", "EMERGENCY"] : List String)
    ∧ ((compute_alert_level r s c i none).value = "EMERGENCY"
        ↔ (r ≥ 85 ∨ s ≥ 70 ∨ i ≥ 30))
    ∧ ((compute_alert_level r s c i none).value = "WARNING"
        ↔ (¬(r ≥ 85 ∨ s ≥ 70 ∨ i ≥ 30)
            ∧ (r ≥ 70 ∨ s ≥ 55 ∨ c ≥ (0.65 : ℚ))))
    ∧ ((compute_alert_level r s c i none).value = "WATCH"
        ↔ (¬(r ≥ 85 ∨ s ≥ 70 ∨ i ≥ 30)
            ∧ ¬(r ≥ 70 ∨ s ≥ 55 ∨ c ≥ (0.65 : ℚ)) ∧ (r ≥ 55 ∨ s ≥ 35)))
    ∧ ((compute_alert_level r s c i none).value = "NORMAL"
        ↔ (¬(r ≥ 85 ∨ s ≥ 70 ∨ i ≥ 30)
            ∧ ¬(r ≥ 70 ∨ s ≥ 55 ∨ c ≥ (0.65 : ℚ)) ∧ ¬(r ≥ 55 ∨ s ≥ 35)))
    ∧ (compute_alert_level 90 75 (9/10) 35 none).value = "EMERGENCY"
    ∧ (compute_alert_level 72 50 (67/100) 15 none).value = "WARNING"
    ∧ (compute_alert_level 60 30 (45/100) 10 none).value = "WATCH"
    ∧ (compute_alert_level 10 5 (1/10) 5 none).value = "NORMAL" := by
  simp only [compute_alert_level_value, Option.getD_none, defaultThresholds]
  refine ⟨?_, ?_, ?_, ?_, ?_, ?_, ?_, ?_, ?_⟩
  · split_ifs <;> simp
  · split_ifs <;> simp_all
  · split_ifs <;> simp_all
  · split_ifs <;> simp_all
  · split_ifs <;> simp_all
  · rw [if_pos (by norm_num)]
  · rw [if_neg (by norm_num), if_pos (by norm_num)]
  · rw [if_neg (by norm_num), if_neg (by norm_num), if_pos (by norm_num)]
  · rw [if_neg (by norm_num), if_neg (by norm_num), if_neg (by norm_num)]

/-- Percent change of a two-row series: one comparison between the two
single-row thirds. -/
theorem pct_change_two (a b : ℚ) :
    _pct_change [a, b] = if a = 0 then 0 else pyRound1 ((b - a) / a * 100) := by
  unfold _pct_change listMean takeLast
  norm_num

/-- A concrete two-row environmental series (dates 0 and 1; temperature
rising from 30 to 33, the other signals flat). -/
def envEx2 : DataFrame :=
  ⟨2, [("date", [0, 1]), ("temp_c", [30, 33]), ("nighttime_temp_c", [20, 20]),
       ("pm25_ugm3", [10, 10])]⟩

/-- A concrete two-row micro-signal series (all signals flat). -/
def microEx2 : DataFrame :=
  ⟨2, [("date", [0, 1]), ("symptom_search_index", [50, 50]),
       ("pharmacy_visits_index", [40, 40]), ("clinic_cases_index", [30, 30])]⟩

/-- A concrete one-district vulnerability table. -/
def vulnEx : DataFrame := ⟨1, [("vulnerability_score", [60])]⟩

theorem envEx2_temp : envEx2.getCol "temp_c" = some [30, 33] := by
  simp [envEx2, DataFrame.getCol, List.find?]

theorem envEx2_night : envEx2.getCol "nighttime_temp_c" = some [20, 20] := by
  simp [envEx2, DataFrame.getCol, List.find?]

theorem envEx2_pm25 : envEx2.getCol "pm25_ugm3" = some [10, 10] := by
  simp [envEx2, DataFrame.getCol, List.find?]

theorem envEx2_date : envEx2.getCol "date" = some [0, 1] := by
  simp [envEx2, DataFrame.getCol, List.find?]

theorem microEx2_search : microEx2.getCol "symptom_search_index" = some [50, 50] := by
  simp [microEx2, DataFrame.getCol, List.find?]

theorem microEx2_pharmacy :
    microEx2.getCol "pharmacy_visits_index" = some [40, 40] := by
  simp [microEx2, DataFrame.getCol, List.find?]

theorem microEx2_clinic : microEx2.getCol "clinic_cases_index" = some [30, 30] := by
  simp [microEx2, DataFrame.getCol, List.find?]

theorem vulnEx_score : vulnEx.getCol "vulnerability_score" = some [60] := by
  simp [vulnEx, DataFrame.getCol, List.find?]

/-- The six change percentages of the concrete two-row example. -/
theorem envEx2_changes :
    _pct_change [(30 : ℚ), 33] = 10 ∧ _pct_change [(20 : ℚ), 20] = 0
    ∧ _pct_change [(10 : ℚ), 10] = 0 ∧ _pct_change [(50 : ℚ), 50] = 0
    ∧ _pct_change [(40 : ℚ), 40] = 0 ∧ _pct_change [(30 : ℚ), 30] = 0 := by
  refine ⟨?_, ?_, ?_, ?_, ?_, ?_⟩ <;>
    norm_num [pct_change_two, pyRound1, pyRound]

/-- Counterexample to C4 as stated: on a two-row series whose temperature
rises from 30 to 33, the "Daytime Temperature" driver has
`change_pct = 10.0`, not 0.0 (one comparison between the two single-row
thirds is computed); moreover the default call (`top_n = 5`, as used by
`compute_all_kpis`) returns five entries, not six. -/
theorem C4_counterexample :
    (identify_drivers envEx2 microEx2 6).map (fun l => l.map Driver.change_pct)
      = .ok [10, 0, 0, 0, 0, 0]
    ∧ (10 : ℚ) ≠ 0
    ∧ (identify_drivers envEx2 microEx2 5).map (fun l => l.length) = .ok 5
    ∧ (5 : ℕ) ≠ 6 := by
  obtain ⟨h1, h2, h3, h4, h5, h6⟩ := envEx2_changes
  refine ⟨?_, by norm_num, ?_, by norm_num⟩
  · rw [identify_drivers_eq 6 (by norm_num [envEx2]) (by norm_num [microEx2])
      envEx2_temp rfl envEx2_night rfl envEx2_pm25 rfl
      microEx2_search rfl microEx2_pharmacy rfl microEx2_clinic rfl]
    rw [h1, h2, h3, h4, h5, h6]
    norm_num [sortByScoreDesc, insertByScoreDesc, directionArrow, Except.map]
  · rw [identify_drivers_eq 5 (by norm_num [envEx2]) (by norm_num [microEx2])
      envEx2_temp rfl envEx2_night rfl envEx2_pm25 rfl
      microEx2_search rfl microEx2_pharmacy rfl microEx2_clinic rfl]
    rw [h1, h2, h3, h4, h5, h6]
    norm_num [sortByScoreDesc, insertByScoreDesc, directionArrow, Except.map]

/-- C4 as amended: on every pair of two-row input series exposing the
expected columns, `identify_drivers` returns `min(top_n, 6)` entries (five
under the default `top_n = 5`), and each returned entry's `change_pct`
equals the rounded percent change from its signal's first row to its
second row — which is 0.0 exactly when the first value is 0 or the two
rows agree, not in general. -/
theorem C4_two_row_drivers {df_env df_micro : DataFrame} (top_n : ℕ)
    {t0 t1 n0 n1 p0 p1 s0 s1 ph0 ph1 c0 c1 : ℚ}
    (henv : df_env.nrows ≠ 0) (hmicro : df_micro.nrows ≠ 0)
    (htc : df_env.getCol "temp_c" = some [t0, t1])
    (hnc : df_env.getCol "nighttime_temp_c" = some [n0, n1])
    (hpc : df_env.getCol "pm25_ugm3" = some [p0, p1])
    (hsc : df_micro.getCol "symptom_search_index" = some [s0, s1])
    (hphc : df_micro.getCol "pharmacy_visits_index" = some [ph0, ph1])
    (hcc : df_micro.getCol "clinic_cases_index" = some [c0, c1]) :
    ∃ l, identify_drivers df_env df_micro top_n = .ok l
      ∧ l.length = min top_n 6
      ∧ ∀ d ∈ l,
        (d.name = "Daytime Temperature" →
          d.change_pct = if t0 = 0 then 0 else pyRound1 ((t1 - t0) / t0 * 100))
        ∧ (d.name = "Night-time Temperature" →
          d.change_pct = if n0 = 0 then 0 else pyRound1 ((n1 - n0) / n0 * 100))
        ∧ (d.name = "PM2.5 Air Quality" →
          d.change_pct = if p0 = 0 then 0 else pyRound1 ((p1 - p0) / p0 * 100))
        ∧ (d.name = "Symptom Search Index" →
          d.change_pct = if s0 = 0 then 0 else pyRound1 ((s1 - s0) / s0 * 100))
        ∧ (d.name = "Pharmacy Respiratory Sales" →
          d.change_pct = if ph0 = 0 then 0 else pyRound1 ((ph1 - ph0) / ph0 * 100))
        ∧ (d.name = "Clinic Respiratory Cases" →
          d.change_pct = if c0 = 0 then 0 else pyRound1 ((c1 - c0) / c0 * 100)) := by
  rw [identify_drivers_eq top_n henv hmicro htc rfl hnc rfl hpc rfl hsc rfl
    hphc rfl hcc rfl]
  refine ⟨_, rfl, ?_, ?_⟩
  · simp [List.length_take, length_sortByScoreDesc]
  · intro d hd
    have hd6 := mem_sortByScoreDesc (List.mem_of_mem_take hd)
    simp only [List.mem_cons, List.not_mem_nil, or_false] at hd6
    rcases hd6 with h | h | h | h | h | h <;> subst h <;>
      simp [pct_change_two]

/-- Witness for C4's amended theorem at the concrete two-row frames. -/
theorem C4_witness :
    ∃ l, identify_drivers envEx2 microEx2 5 = .ok l ∧ l.length = min 5 6 := by
  obtain ⟨l, hl, hlen, _⟩ := @C4_two_row_drivers envEx2 microEx2 5
    30 33 20 20 10 10 50 50 40 40 30 30
    (by norm_num [envEx2]) (by norm_num [microEx2])
    envEx2_temp envEx2_night envEx2_pm25
    microEx2_search microEx2_pharmacy microEx2_clinic
  exact ⟨l, hl, hlen⟩

/-- Counterexample to C5 as stated: with `top_n = 7` and non-empty series
only six drivers exist, so fewer than `top_n` entries are returned. -/
theorem C5_counterexample :
    (identify_drivers envEx2 microEx2 7).map (fun l => l.length) = .ok 6
    ∧ ¬ (7 : ℕ) ≤ 6 := by
  obtain ⟨h1, h2, h3, h4, h5, h6⟩ := envEx2_changes
  refine ⟨?_, by norm_num⟩
  rw [identify_drivers_eq 7 (by norm_num [envEx2]) (by norm_num [microEx2])
    envEx2_temp rfl envEx2_night rfl envEx2_pm25 rfl
    microEx2_search rfl microEx2_pharmacy rfl microEx2_clinic rfl]
  rw [h1, h2, h3, h4, h5, h6]
  norm_num [sortByScoreDesc, insertByScoreDesc, directionArrow, Except.map]

/-- C5 as amended: on every pair of non-empty input series exposing the six
expected columns, `identify_drivers` returns at least `min(top_n, 6)`
entries — hence at least `top_n` entries whenever `top_n ≤ 6` (which covers
the default `top_n = 5`), but never more than the six fixed candidates. -/
theorem C5_at_least_min_top_n {df_env df_micro : DataFrame} (top_n : ℕ)
    {tc nc pc sc phc cc : List ℚ} {tv nv pv sv phv cv : ℚ}
    (henv : df_env.nrows ≠ 0) (hmicro : df_micro.nrows ≠ 0)
    (htc : df_env.getCol "temp_c" = some tc) (htv : tc.getLast? = some tv)
    (hnc : df_env.getCol "nighttime_temp_c" = some nc) (hnv : nc.getLast? = some nv)
    (hpc : df_env.getCol "pm25_ugm3" = some pc) (hpv : pc.getLast? = some pv)
    (hsc : df_micro.getCol "symptom_search_index" = some sc)
    (hsv : sc.getLast? = some sv)
    (hphc : df_micro.getCol "pharmacy_visits_index" = some phc)
    (hphv : phc.getLast? = some phv)
    (hcc : df_micro.getCol "clinic_cases_index" = some cc)
    (hcv : cc.getLast? = some cv) :
    ∃ l, identify_drivers df_env df_micro top_n = .ok l
      ∧ min top_n 6 ≤ l.length := by
  rw [identify_drivers_eq top_n henv hmicro htc htv hnc hnv hpc hpv hsc hsv
    hphc hphv hcc hcv]
  exact ⟨_, rfl, by simp [List.length_take, length_sortByScoreDesc]⟩

/-- Witness for C5's amended theorem at the concrete two-row frames. -/
theorem C5_witness :
    ∃ l, identify_drivers envEx2 microEx2 6 = .ok l ∧ min 6 6 ≤ l.length := by
  exact C5_at_least_min_top_n 6
    (by norm_num [envEx2]) (by norm_num [microEx2])
    envEx2_temp rfl envEx2_night rfl envEx2_pm25 rfl
    microEx2_search rfl microEx2_pharmacy rfl microEx2_clinic rfl

/-- A vulnerability table with zero rows whose score column is present
(as in a pandas empty frame with declared columns): its mean is NaN. -/
def vulnEmpty : DataFrame := ⟨0, [("vulnerability_score", [])]⟩

theorem vulnEmpty_score : vulnEmpty.getCol "vulnerability_score" = some [] := by
  simp [vulnEmpty, DataFrame.getCol, List.find?]

/-- A one-row environmental frame missing the temperature column. -/
def envMissingTemp : DataFrame := ⟨1, [("date", [0])]⟩

/-- Counterexample to C6 as stated: the two listed classes are not the only
errors the engine can raise.  With both input series non-empty and fully
columned but a zero-row vulnerability table, the vulnerability mean is NaN
(`risk_engine.py` line 271) and `round` of it inside the risk index
(line 279 via line 67) raises a `ValueError` — neither an empty-series nor
a schema-mismatch failure. -/
theorem C6_counterexample :
    compute_all_kpis (fun x => x) envEx2 microEx2 vulnEmpty 0
      = .error .valueError
    ∧ EngineError.valueError ≠ .emptySeries
    ∧ EngineError.valueError ≠ .schemaMismatch := by
  refine ⟨?_, by simp, by simp⟩
  exact compute_all_kpis_nan (fun x => x) 0
    (by norm_num [envEx2]) (by norm_num [microEx2])
    envEx2_temp rfl envEx2_night rfl envEx2_pm25 rfl
    microEx2_search rfl microEx2_pharmacy rfl microEx2_clinic rfl
    vulnEmpty_score

/-- C6 as amended: if the environmental series has zero rows,
`compute_all_kpis` fails immediately with the empty-series error; likewise
when the environmental series is fine but the micro-signal series has zero
rows; a missing expected column fails with the schema-mismatch error; on
series with at least one row each the only possible failures are schema
mismatch and the NaN-rounding `ValueError` of a zero-row vulnerability
table, and with a non-empty vulnerability column only schema mismatch
remains; every error is one of these three classes, and the `Except`
result carries no partial computation. -/
theorem C6_error_classes (sigma : ℚ → ℚ) (df_env df_micro df_vuln : DataFrame)
    (now : ℚ) (a b c : ℚ) (vc : List ℚ) :
    (df_env.nrows = 0 →
      compute_all_kpis sigma df_env df_micro df_vuln now = .error .emptySeries)
    ∧ (df_env.nrows ≠ 0 → colLast df_env "temp_c" = .ok a →
        colLast df_env "nighttime_temp_c" = .ok b →
        colLast df_env "pm25_ugm3" = .ok c → df_micro.nrows = 0 →
        compute_all_kpis sigma df_env df_micro df_vuln now = .error .emptySeries)
    ∧ (df_env.nrows ≠ 0 → df_env.getCol "temp_c" = none →
        compute_all_kpis sigma df_env df_micro df_vuln now
          = .error .schemaMismatch)
    ∧ (df_env.nrows ≠ 0 → df_micro.nrows ≠ 0 →
        ∀ e, compute_all_kpis sigma df_env df_micro df_vuln now = .error e →
          e = .schemaMismatch ∨ e = .valueError)
    ∧ (df_env.nrows ≠ 0 → df_micro.nrows ≠ 0 →
        df_vuln.getCol "vulnerability_score" = some vc → vc ≠ [] →
        ∀ e, compute_all_kpis sigma df_env df_micro df_vuln now = .error e →
          e = .schemaMismatch)
    ∧ (∀ e, compute_all_kpis sigma df_env df_micro df_vuln now = .error e →
        e = .emptySeries ∨ e = .schemaMismatch ∨ e = .valueError) := by
  refine ⟨?_, ?_, ?_, ?_, ?_, ?_⟩
  · intro h
    unfold compute_all_kpis
    simp only [colLast_empty h, except_error_bind]
  · intro h1 ha hb hc h2
    unfold compute_all_kpis
    simp only [ha, hb, hc, except_ok_bind, colLast_empty h2, except_error_bind]
  · intro h1 h2
    have hcl : colLast df_env "temp_c" = .error .schemaMismatch := by
      unfold colLast
      rw [if_neg h1, h2]
    unfold compute_all_kpis
    simp only [hcl, except_error_bind]
  · intro h1 h2 e he
    exact compute_all_kpis_error h1 h2 he
  · intro h1 h2 hvc hvne e he
    exact compute_all_kpis_error_vuln h1 h2 hvc hvne he
  · intro e _
    cases e
    · exact Or.inl rfl
    · exact Or.inr (Or.inl rfl)
    · exact Or.inr (Or.inr rfl)

/-- Witness for C6's amended theorem: an empty environmental frame, an
empty micro frame behind a well-formed environmental frame, a frame missing
the temperature column, and the error-classification parts discharged at
that schema-failing run with a non-empty vulnerability column. -/
theorem C6_witness :
    compute_all_kpis (fun x => x) ⟨0, []⟩ microEx2 vulnEx 0
      = .error .emptySeries
    ∧ compute_all_kpis (fun x => x) envEx2 ⟨0, []⟩ vulnEx 0
      = .error .emptySeries
    ∧ compute_all_kpis (fun x => x) envMissingTemp microEx2 vulnEx 0
      = .error .schemaMismatch
    ∧ (EngineError.schemaMismatch = .schemaMismatch
        ∨ EngineError.schemaMismatch = .valueError)
    ∧ EngineError.schemaMismatch = .schemaMismatch := by
  have h3 := (C6_error_classes (fun x => x) envMissingTemp microEx2 vulnEx 0
    0 0 0 [60]).2.2.1 (by norm_num [envMissingTemp])
    (by simp [envMissingTemp, DataFrame.getCol, List.find?])
  refine ⟨(C6_error_classes (fun x => x) ⟨0, []⟩ microEx2 vulnEx 0 0 0 0 []).1
      rfl,
    (C6_error_classes (fun x => x) envEx2 ⟨0, []⟩ vulnEx 0 33 20 10 []).2.1
      (by norm_num [envEx2])
      (colLast_ok (by norm_num [envEx2]) envEx2_temp rfl)
      (colLast_ok (by norm_num [envEx2]) envEx2_night rfl)
      (colLast_ok (by norm_num [envEx2]) envEx2_pm25 rfl) rfl,
    h3,
    (C6_error_classes (fun x => x) envMissingTemp microEx2 vulnEx 0
      0 0 0 []).2.2.2.1 (by norm_num [envMissingTemp])
      (by norm_num [microEx2]) _ h3,
    (C6_error_classes (fun x => x) envMissingTemp microEx2 vulnEx 0
      0 0 0 [60]).2.2.2.2.1 (by norm_num [envMissingTemp])
      (by norm_num [microEx2]) vulnEx_score (by norm_num) _ h3⟩

/-- Replace the clock-derived `last_update` field by a fixed value,
keeping every other field. -/
def eraseLastUpdate : KpiRecord → KpiRecord
  | ⟨co, ci, di, ps, pe, fd, dm, _, rv, rl, rd, sv2, sd2, ss, cv2, cc2, ip, ipd,
     al, dr, sh, sp, sm, sa⟩ =>
    ⟨co, ci, di, ps, pe, fd, dm, 0, rv, rl, rd, sv2, sd2, ss, cv2, cc2, ip, ipd,
     al, dr, sh, sp, sm, sa⟩

/-- Counterexample to C3 as stated: `compute_all_kpis` reads the current
clock (`datetime.now()`) into the `last_update` field, so two calls on the
same environmental series, micro-signal series and vulnerability table —
here at clock readings 0 and 1 — return different outputs. -/
theorem C3_counterexample :
    compute_all_kpis (fun x => x) envEx2 microEx2 vulnEx 0
      ≠ compute_all_kpis (fun x => x) envEx2 microEx2 vulnEx 1 := by
  have hpd : ([0, 1] : List ℚ).get?
      (argmaxIdx (List.zipWith (· + ·) [30, 33] [10, 10])) = some 1 := by
    norm_num [argmaxIdx, argmaxAux]
  have hml : listMean? [(60 : ℚ)] = some 60 := by norm_num [listMean?]
  obtain ⟨k0, hk0, hl0⟩ := compute_all_kpis_ok (fun x => x) 0
    (by norm_num [envEx2]) (by norm_num [microEx2])
    envEx2_temp rfl envEx2_night rfl envEx2_pm25 rfl
    microEx2_search rfl microEx2_pharmacy rfl microEx2_clinic rfl
    vulnEx_score hml envEx2_date hpd rfl rfl
  obtain ⟨k1, hk1, hl1⟩ := compute_all_kpis_ok (fun x => x) 1
    (by norm_num [envEx2]) (by norm_num [microEx2])
    envEx2_temp rfl envEx2_night rfl envEx2_pm25 rfl
    microEx2_search rfl microEx2_pharmacy rfl microEx2_clinic rfl
    vulnEx_score hml envEx2_date hpd rfl rfl
  rw [hk0, hk1]
  intro h
  have hk : k0 = k1 := by
    simpa using h
  rw [hk] at hl0
  rw [hl0] at hl1
  norm_num at hl1

/-- C3 as amended: with the clock reading made an explicit input, every
engine function is a pure deterministic transform; the clock enters the
output only through `last_update`, so runs of `compute_all_kpis` on the
same series and vulnerability table at any two clock readings agree after
erasing `last_update` — on erroring inputs they agree exactly. -/
theorem C3_deterministic_modulo_clock (sigma : ℚ → ℚ)
    (df_env df_micro df_vuln : DataFrame) (t1 t2 : ℚ) :
    (compute_all_kpis sigma df_env df_micro df_vuln t1).map eraseLastUpdate
      = (compute_all_kpis sigma df_env df_micro df_vuln t2).map eraseLastUpdate := by
  unfold compute_all_kpis
  refine map_bind_congr _ _ _ _ fun a1 => ?_
  refine map_bind_congr _ _ _ _ fun a2 => ?_
  refine map_bind_congr _ _ _ _ fun a3 => ?_
  refine map_bind_congr _ _ _ _ fun a4 => ?_
  refine map_bind_congr _ _ _ _ fun a5 => ?_
  refine map_bind_congr _ _ _ _ fun a6 => ?_
  refine map_bind_congr _ _ _ _ fun a7 => ?_
  refine map_bind_congr _ _ _ _ fun a8 => ?_
  refine map_bind_congr _ _ _ _ fun a9 => ?_
  refine map_bind_congr _ _ _ _ fun a10 => ?_
  refine map_bind_congr _ _ _ _ fun a11 => ?_
  refine map_bind_congr _ _ _ _ fun a12 => ?_
  refine map_bind_congr _ _ _ _ fun a13 => ?_
  refine map_bind_congr _ _ _ _ fun a14 => ?_
  refine map_bind_congr _ _ _ _ fun a15 => ?_
  rfl

/-- Witness instantiating the C2 classifier theorem at a concrete
quadruple. -/
theorem C2_witness :
    (compute_alert_level 90 75 (9/10) 35 none).value = "EMERGENCY" :=
  (C2_alert_classifier 0 0 0 0).2.2.2.2.2.1
